import Mathlib

/-!
Shallow embedding of the request-orchestration pipeline of
`api/lookup.go` (trumail): address parsing, cache-backed memoization,
timeout-bounded verification, telemetry counting and multi-format
response encoding.

External collaborators (the `verifier` package, the go-cache instance,
tinystat and raven) are modelled by their interfaces: the parser and
the verification engine become oracle functions in an `Env`, the TTL
cache becomes an association list holding exactly the entries that are
currently within their TTL, and telemetry becomes explicit counters
plus the list of errors captured by the error sink.  The number of
verification-engine invocations is tracked in the service state so
that memoization claims can be stated.
-/

namespace Trumail

/-- `FormatJSON` constant from `api/lookup.go`. -/
def FormatJSON : String := "JSON"

/-- `FormatJSONP` constant from `api/lookup.go`. -/
def FormatJSONP : String := "JSONP"

/-- `FormatXML` constant from `api/lookup.go`. -/
def FormatXML : String := "XML"

namespace verifier

/-- Modelled from the spec: `verifier.Lookup` (the Verdict) is produced by
the external verification engine; the pipeline only inspects its
`Deliverable` flag, the remaining opaque fields are collapsed into
`payload` so that distinct verdicts stay distinguishable. -/
structure Lookup where
  deliverable : Bool
  payload : String
deriving DecidableEq, Repr

/-- Modelled from the spec: the canonical address returned by
`verifier.ParseAddress`; the pipeline only reads its deterministic
`MD5Hash` content digest, used as the cache key. -/
structure Address where
  md5Hash : String
deriving DecidableEq, Repr

end verifier

/-- Modelled from the spec: Go's `strings.ToUpper`, mapping the
rune-wise uppercase function over the string. -/
def strings.ToUpper (s : String) : String :=
  String.mk (s.data.map Char.toUpper)

/-- Pipeline-internal error values: the parse error returned by
`verifier.ParseAddress` and the verification error returned by
`VerifyAddressTimeout` (including deadline exceeded), each carrying its
message. -/
inductive Err where
  | parse (msg : String)
  | verification (msg : String)
deriving DecidableEq, Repr

/-- The `interface{}` response value handed to `countAndRespond`:
either a `*verifier.Lookup` verdict or an error. -/
inductive Res where
  | lookup (l : verifier.Lookup)
  | err (e : Err)
deriving DecidableEq, Repr

/-- An `echo.HTTPError`: a status code plus a message. -/
structure HTTPError where
  code : Nat
  message : String
deriving DecidableEq, Repr

/-- `ErrVerificationFailure` from `api/lookup.go` (declared by the source,
not referenced by the handler, which returns the raw error with 500). -/
def ErrVerificationFailure : HTTPError :=
  { code := 500, message := "Failed to perform email verification lookup" }

/-- `ErrUnsupportedFormat` from `api/lookup.go`. -/
def ErrUnsupportedFormat : HTTPError :=
  { code := 400, message := "Unsupported format" }

/-- `ErrInvalidCallback` from `api/lookup.go`. -/
def ErrInvalidCallback : HTTPError :=
  { code := 400, message := "Invalid callback query param provided" }

/-- A successfully encoded response: `c.JSON`, `c.JSONP` or `c.XML`
applied to the status code and response value (the serialization itself
is performed by the external echo framework, so the encoded response is
kept structurally). -/
inductive Encoded where
  | json (code : Nat) (res : Res)
  | jsonp (code : Nat) (callback : String) (res : Res)
  | xml (code : Nat) (res : Res)
deriving DecidableEq, Repr

/-- Outcome of `respond`: either a successfully encoded response, or an
`echo.HTTPError` (`ErrUnsupportedFormat` / `ErrInvalidCallback`) that
echo's error handler turns into a response with that error's code. -/
inductive RespondResult where
  | ok (e : Encoded)
  | httpError (e : HTTPError)
deriving DecidableEq, Repr

/-- The user-visible HTTP status of a respond outcome. -/
def RespondResult.status : RespondResult → Nat
  | .ok (.json code _) => code
  | .ok (.jsonp code _ _) => code
  | .ok (.xml code _) => code
  | .httpError e => e.code

/-- The response value carried by the body, when a body was emitted;
`none` when `respond` failed before emitting any body. -/
def RespondResult.body : RespondResult → Option Res
  | .ok (.json _ r) => some r
  | .ok (.jsonp _ _ r) => some r
  | .ok (.xml _ r) => some r
  | .httpError _ => none

/-- The parameters `respond` reads off the `echo.Context`: the `email`
and `format` path parameters and the `callback` query parameter
(`c.QueryParam` yields `""` when the parameter is absent). -/
structure Request where
  email : String
  format : String
  callback : String
deriving DecidableEq, Repr

/-- `respond` from `api/lookup.go`: dispatches on
`strings.ToUpper(c.Param("format"))` with cases `FormatJSON`,
`FormatJSONP` (requiring a non-empty callback), `FormatXML`, and a
default returning `ErrUnsupportedFormat`. -/
def respond (c : Request) (code : Nat) (res : Res) : RespondResult :=
  if strings.ToUpper c.format = FormatJSON then
    .ok (.json code res)
  else if strings.ToUpper c.format = FormatJSONP then
    if c.callback = "" then .httpError ErrInvalidCallback
    else .ok (.jsonp code c.callback res)
  else if strings.ToUpper c.format = FormatXML then
    .ok (.xml code res)
  else
    .httpError ErrUnsupportedFormat

/-- Telemetry state: the tinystat counters and the list of errors
captured by the raven (Sentry) error sink, oldest first. -/
structure Telemetry where
  deliverable : Nat
  undeliverable : Nat
  error : Nat
  sentry : List Err
deriving DecidableEq, Repr

/-- `count` from `api/lookup.go`: type-switch on the response value;
a verdict increments the "deliverable" or "undeliverable" counter
according to its flag, an error is captured by raven and increments the
"error" counter. -/
def count (t : Telemetry) (res : Res) : Telemetry :=
  match res with
  | .lookup r =>
    if r.deliverable then { t with deliverable := t.deliverable + 1 }
    else { t with undeliverable := t.undeliverable + 1 }
  | .err e =>
    { t with sentry := t.sentry ++ [e], error := t.error + 1 }

/-- `countAndRespond` from `api/lookup.go`: submit metrics for the
response value, then encode it. -/
def countAndRespond (c : Request) (t : Telemetry) (code : Nat) (res : Res) :
    Telemetry × RespondResult :=
  (count t res, respond c code res)

/-- Modelled from the spec: the go-cache instance `s.lookupCache` lives
outside this repository; it is modelled as the association list of the
entries currently within their TTL (an expired entry behaves as
absent, so it is simply not in the list). -/
abbrev Cache := List (String × verifier.Lookup)

/-- `Get`: the cached verdict for a hash, if a live entry exists. -/
def Cache.get (cache : Cache) (hash : String) : Option verifier.Lookup :=
  cache.lookup hash

/-- `SetDefault`: store a verdict under a hash with the default TTL; the
new binding shadows any previous one for the same hash. -/
def Cache.setDefault (cache : Cache) (hash : String) (l : verifier.Lookup) :
    Cache :=
  (hash, l) :: cache

/-- The oracle interfaces of the external `verifier` package:
`ParseAddress` and `VerifyAddressTimeout` (the latter already has the
service timeout applied, so a deadline-exceeded run is an `error`
result). -/
structure Env where
  parseAddress : String → Except String verifier.Address
  verifyAddressTimeout : verifier.Address → Except String verifier.Lookup

/-- The mutable state visible to the handler: the lookup cache, the
telemetry state, and the instrumentation counter recording how many
times the verification engine was invoked. -/
structure ServiceState where
  lookupCache : Cache
  telem : Telemetry
  verifyCount : Nat
deriving Repr

/-- `Service.Lookup` from `api/lookup.go`: parse the address (parse
failure → `countAndRespond` with 400); check the cache for the hash
(hit → `countAndRespond` with 200); otherwise invoke the verification
engine (failure → `countAndRespond` with 500); on success store the
verdict in the cache and `countAndRespond` with 200. -/
def Service.Lookup (env : Env) (c : Request) (s : ServiceState) :
    ServiceState × RespondResult :=
  match env.parseAddress c.email with
  | .error e =>
    let cr := countAndRespond c s.telem 400 (.err (.parse e))
    ({ s with telem := cr.1 }, cr.2)
  | .ok address =>
    match s.lookupCache.get address.md5Hash with
    | some lookup =>
      let cr := countAndRespond c s.telem 200 (.lookup lookup)
      ({ s with telem := cr.1 }, cr.2)
    | none =>
      match env.verifyAddressTimeout address with
      | .error e =>
        let cr := countAndRespond c s.telem 500 (.err (.verification e))
        ({ s with telem := cr.1, verifyCount := s.verifyCount + 1 }, cr.2)
      | .ok lookup =>
        let cr := countAndRespond c s.telem 200 (.lookup lookup)
        ({ s with
            lookupCache := s.lookupCache.setDefault address.md5Hash lookup,
            telem := cr.1,
            verifyCount := s.verifyCount + 1 }, cr.2)

/-- The format values accepted by `respond`, up to `ToUpper`. -/
def acceptedFormat (f : String) : Prop :=
  strings.ToUpper f = FormatJSON ∨ strings.ToUpper f = FormatJSONP ∨
    strings.ToUpper f = FormatXML

instance : DecidablePred acceptedFormat := fun f => by
  unfold acceptedFormat; infer_instance

/-- The requests on which `respond` succeeds (for every code and
response value): an accepted format, with a non-empty callback when the
format selects JSONP. -/
def encodingOk (c : Request) : Prop :=
  strings.ToUpper c.format = FormatJSON ∨
  (strings.ToUpper c.format = FormatJSONP ∧ c.callback ≠ "") ∨
  strings.ToUpper c.format = FormatXML

instance : DecidablePred encodingOk := fun c => by
  unfold encodingOk; infer_instance

/-- Total number of telemetry counter increments. -/
def Telemetry.total (t : Telemetry) : Nat :=
  t.deliverable + t.undeliverable + t.error

/-! ### Branch-reduction lemmas for the handler -/

theorem Lookup_parse_error (env : Env) (c : Request) (s : ServiceState)
    (e : String) (h : env.parseAddress c.email = .error e) :
    Service.Lookup env c s =
      ({ s with telem := count s.telem (.err (.parse e)) },
        respond c 400 (.err (.parse e))) := by
  simp [Service.Lookup, h, countAndRespond]

theorem Lookup_cache_hit (env : Env) (c : Request) (s : ServiceState)
    (a : verifier.Address) (l : verifier.Lookup)
    (hp : env.parseAddress c.email = .ok a)
    (hc : s.lookupCache.get a.md5Hash = some l) :
    Service.Lookup env c s =
      ({ s with telem := count s.telem (.lookup l) },
        respond c 200 (.lookup l)) := by
  simp [Service.Lookup, hp, hc, countAndRespond]

theorem Lookup_verify_error (env : Env) (c : Request) (s : ServiceState)
    (a : verifier.Address) (e : String)
    (hp : env.parseAddress c.email = .ok a)
    (hc : s.lookupCache.get a.md5Hash = none)
    (hv : env.verifyAddressTimeout a = .error e) :
    Service.Lookup env c s =
      ({ s with
          telem := count s.telem (.err (.verification e))
          verifyCount := s.verifyCount + 1 },
        respond c 500 (.err (.verification e))) := by
  simp [Service.Lookup, hp, hc, hv, countAndRespond]

theorem Lookup_verify_ok (env : Env) (c : Request) (s : ServiceState)
    (a : verifier.Address) (l : verifier.Lookup)
    (hp : env.parseAddress c.email = .ok a)
    (hc : s.lookupCache.get a.md5Hash = none)
    (hv : env.verifyAddressTimeout a = .ok l) :
    Service.Lookup env c s =
      ({ s with
          lookupCache := s.lookupCache.setDefault a.md5Hash l
          telem := count s.telem (.lookup l)
          verifyCount := s.verifyCount + 1 },
        respond c 200 (.lookup l)) := by
  simp [Service.Lookup, hp, hc, hv, countAndRespond]

/-- A freshly stored verdict is returned by the next `Get` on its hash. -/
theorem Cache.get_setDefault_self (cache : Cache) (hash : String)
    (l : verifier.Lookup) :
    (cache.setDefault hash l).get hash = some l := by
  simp [Cache.get, Cache.setDefault, List.lookup]

/-- The handler's respond outcome is always `respond` applied to the
request: the format dispatch is the final step on every path. -/
theorem Lookup_snd_eq_respond (env : Env) (c : Request) (s : ServiceState) :
    ∃ code res, (Service.Lookup env c s).2 = respond c code res := by
  cases hp : env.parseAddress c.email with
  | error e =>
    exact ⟨400, .err (.parse e), by rw [Lookup_parse_error env c s e hp]⟩
  | ok a =>
    cases hc : s.lookupCache.get a.md5Hash with
    | some l =>
      exact ⟨200, .lookup l, by rw [Lookup_cache_hit env c s a l hp hc]⟩
    | none =>
      cases hv : env.verifyAddressTimeout a with
      | error e =>
        exact ⟨500, .err (.verification e),
          by rw [Lookup_verify_error env c s a e hp hc hv]⟩
      | ok l =>
        exact ⟨200, .lookup l, by rw [Lookup_verify_ok env c s a l hp hc hv]⟩

/-- `respond` called with status 400 always yields a 400 outcome: every
encoding failure is itself a 400 `echo.HTTPError`. -/
theorem respond_status_400 (c : Request) (res : Res) :
    (respond c 400 res).status = 400 := by
  unfold respond
  by_cases h1 : strings.ToUpper c.format = FormatJSON
  · rw [if_pos h1]; rfl
  · rw [if_neg h1]
    by_cases h2 : strings.ToUpper c.format = FormatJSONP
    · rw [if_pos h2]
      by_cases h3 : c.callback = ""
      · rw [if_pos h3]; rfl
      · rw [if_neg h3]; rfl
    · rw [if_neg h2]
      by_cases h4 : strings.ToUpper c.format = FormatXML
      · rw [if_pos h4]; rfl
      · rw [if_neg h4]; rfl

/-- When the format is unsupported, `respond` fails with
`ErrUnsupportedFormat` whatever the code and response value. -/
theorem respond_unsupported (c : Request) (code : Nat) (res : Res)
    (h : ¬ acceptedFormat c.format) :
    respond c code res = .httpError ErrUnsupportedFormat := by
  unfold acceptedFormat at h
  push_neg at h
  unfold respond
  rw [if_neg h.1, if_neg h.2.1, if_neg h.2.2]

/-- When the encoding succeeds, `respond` keeps the given status code
and carries the given response value in the body. -/
theorem respond_encodingOk (c : Request) (code : Nat) (res : Res)
    (h : encodingOk c) :
    (respond c code res).status = code ∧
      (respond c code res).body = some res := by
  unfold encodingOk at h
  unfold respond
  rcases h with h1 | ⟨h2, hcb⟩ | h3
  · rw [if_pos h1]; exact ⟨rfl, rfl⟩
  · have h1 : ¬ strings.ToUpper c.format = FormatJSON := by rw [h2]; decide
    rw [if_neg h1, if_pos h2, if_neg hcb]; exact ⟨rfl, rfl⟩
  · by_cases h1 : strings.ToUpper c.format = FormatJSON
    · rw [if_pos h1]; exact ⟨rfl, rfl⟩
    · have h2 : ¬ strings.ToUpper c.format = FormatJSONP := by rw [h3]; decide
      rw [if_neg h1, if_neg h2, if_pos h3]; exact ⟨rfl, rfl⟩

/-- An accepted format never produces `ErrUnsupportedFormat`: the
fallback branch of `respond` is only reachable when all three format
comparisons fail. -/
theorem respond_ne_unsupported (c : Request) (code : Nat) (res : Res)
    (h : acceptedFormat c.format) :
    respond c code res ≠ .httpError ErrUnsupportedFormat := by
  unfold respond
  rcases h with h1 | h2 | h3
  · rw [if_pos h1]; intro hx; cases hx
  · have h1 : ¬ strings.ToUpper c.format = FormatJSON := by rw [h2]; decide
    rw [if_neg h1, if_pos h2]
    by_cases hcb : c.callback = ""
    · rw [if_pos hcb]; decide
    · rw [if_neg hcb]; intro hx; cases hx
  · by_cases h1 : strings.ToUpper c.format = FormatJSON
    · rw [if_pos h1]; intro hx; cases hx
    · have h2 : ¬ strings.ToUpper c.format = FormatJSONP := by rw [h3]; decide
      rw [if_neg h1, if_neg h2, if_pos h3]; intro hx; cases hx

/-- When the encoding fails (unsupported format, or JSONP without a
callback), `respond` yields a 400 `echo.HTTPError` and emits no body. -/
theorem respond_encodingBad (c : Request) (code : Nat) (res : Res)
    (h : ¬ encodingOk c) :
    (respond c code res).status = 400 ∧ (respond c code res).body = none := by
  unfold encodingOk at h
  push_neg at h
  obtain ⟨h1, h2, h3⟩ := h
  unfold respond
  rw [if_neg h1]
  by_cases hf2 : strings.ToUpper c.format = FormatJSONP
  · rw [if_pos hf2, if_pos (h2 hf2)]; exact ⟨rfl, rfl⟩
  · rw [if_neg hf2, if_neg h3]; exact ⟨rfl, rfl⟩

/-- `count` performs exactly one counter increment per invocation. -/
theorem count_total (t : Telemetry) (res : Res) :
    (count t res).total = t.total + 1 := by
  cases res with
  | lookup l =>
    by_cases h : l.deliverable <;> simp [count, h, Telemetry.total] <;> omega
  | err e => simp [count, Telemetry.total]; omega

/-! ### Concrete fixtures used by witnesses and counterexamples -/

/-- A concrete environment: every email except `"not-an-email"` parses,
and every hash except the one of `"slow@example.com"` verifies as
deliverable. -/
def envW : Env where
  parseAddress := fun e =>
    if e = "not-an-email" then .error "invalid email"
    else .ok { md5Hash := "h:" ++ e }
  verifyAddressTimeout := fun a =>
    if a.md5Hash = "h:slow@example.com" then .error "deadline exceeded"
    else .ok { deliverable := true, payload := "verdict" }

/-- Fresh telemetry state. -/
def telW : Telemetry where
  deliverable := 0
  undeliverable := 0
  error := 0
  sentry := []

/-- Fresh service state: empty cache, fresh telemetry, no engine calls. -/
def s0W : ServiceState where
  lookupCache := []
  telem := telW
  verifyCount := 0

/-- The verdict `envW` produces for every verifiable address. -/
def lW : verifier.Lookup where
  deliverable := true
  payload := "verdict"

/-- A valid address requested with an unsupported format. -/
def reqBogus : Request where
  email := "a@b.c"
  format := "BOGUS"
  callback := ""

/-- A valid address requested as JSON (mixed case). -/
def reqJson : Request where
  email := "a@b.c"
  format := "Json"
  callback := ""

/-- A valid address requested as JSONP without a callback. -/
def reqJsonpNoCb : Request where
  email := "a@b.c"
  format := "jsonp"
  callback := ""

/-- A valid address requested as JSONP (mixed case) with a callback. -/
def reqJsonpCb : Request where
  email := "a@b.c"
  format := "JsonP"
  callback := "foo"

/-- An unparsable address requested as JSON. -/
def reqBad : Request where
  email := "not-an-email"
  format := "Json"
  callback := ""

/-! ### The claims -/

/-- C2: the encoder keys on the format selector case-insensitively with
exactly three accepted values (JSON, JSONP, XML); any other format
fails with `ErrUnsupportedFormat` and HTTP 400 even when the address is
valid and a verdict (fresh or cached) was obtained, because format
dispatch happens at the final encoding step regardless of the upstream
outcome. -/
theorem C2_format_dispatch (env : Env) (req : Request) (s : ServiceState)
    (code : Nat) (res : Res) :
    (respond req code res = .httpError ErrUnsupportedFormat ↔
      ¬ acceptedFormat req.format) ∧
    (∀ c2 : Request, strings.ToUpper c2.format = strings.ToUpper req.format →
      c2.callback = req.callback → respond c2 code res = respond req code res) ∧
    (¬ acceptedFormat req.format →
      (Service.Lookup env req s).2 = .httpError ErrUnsupportedFormat ∧
      (Service.Lookup env req s).2.status = 400) := by
  refine ⟨⟨fun hresp hacc => respond_ne_unsupported req code res hacc hresp,
    respond_unsupported req code res⟩, ?_, ?_⟩
  · intro c2 hf hcb
    unfold respond
    rw [hf, hcb]
  · intro h
    obtain ⟨code2, res2, heq⟩ := Lookup_snd_eq_respond env req s
    rw [heq, respond_unsupported req code2 res2 h]
    exact ⟨rfl, rfl⟩

/-- Witness for C2 at `format = "BOGUS"` on a valid, verifiable address. -/
theorem C2_format_dispatch_witness :
    (Service.Lookup envW reqBogus s0W).2 = .httpError ErrUnsupportedFormat ∧
    (Service.Lookup envW reqBogus s0W).2.status = 400 :=
  (C2_format_dispatch envW reqBogus s0W 200 (.lookup lW)).2.2 (by decide)

/-- C3: when the format selects JSONP (any casing) and the callback is
empty, the encoder fails with `ErrInvalidCallback` (HTTP 400) before
emitting any body, regardless of address validity or verification
outcome; with a non-empty callback the body is the JSON verdict wrapped
as `callback(<json>)`. -/
theorem C3_jsonp_callback (env : Env) (req : Request) (s : ServiceState)
    (code : Nat) (res : Res)
    (hfmt : strings.ToUpper req.format = FormatJSONP) :
    (req.callback = "" →
      respond req code res = .httpError ErrInvalidCallback ∧
      (respond req code res).body = none ∧
      (respond req code res).status = 400 ∧
      (Service.Lookup env req s).2 = .httpError ErrInvalidCallback) ∧
    (req.callback ≠ "" →
      respond req code res = .ok (.jsonp code req.callback res)) := by
  have h1 : ¬ strings.ToUpper req.format = FormatJSON := by rw [hfmt]; decide
  have hresp : ∀ (code2 : Nat) (res2 : Res), req.callback = "" →
      respond req code2 res2 = .httpError ErrInvalidCallback := by
    intro code2 res2 hcb
    unfold respond
    rw [if_neg h1, if_pos hfmt, if_pos hcb]
  constructor
  · intro hcb
    refine ⟨hresp code res hcb, ?_, ?_, ?_⟩
    · rw [hresp code res hcb]; rfl
    · rw [hresp code res hcb]; rfl
    · obtain ⟨code2, res2, heq⟩ := Lookup_snd_eq_respond env req s
      rw [heq, hresp code2 res2 hcb]
  · intro hcb
    unfold respond
    rw [if_neg h1, if_pos hfmt, if_neg hcb]

/-- Witness for C3 at `format = "jsonp"` with no callback, on a valid,
verifiable address. -/
theorem C3_jsonp_callback_witness :
    (reqJsonpNoCb.callback = "" →
      respond reqJsonpNoCb 200 (.lookup lW) = .httpError ErrInvalidCallback ∧
      (respond reqJsonpNoCb 200 (.lookup lW)).body = none ∧
      (respond reqJsonpNoCb 200 (.lookup lW)).status = 400 ∧
      (Service.Lookup envW reqJsonpNoCb s0W).2 = .httpError ErrInvalidCallback) ∧
    (reqJsonpNoCb.callback ≠ "" →
      respond reqJsonpNoCb 200 (.lookup lW) =
        .ok (.jsonp 200 reqJsonpNoCb.callback (.lookup lW))) :=
  C3_jsonp_callback envW reqJsonpNoCb s0W 200 (.lookup lW) (by decide)

/-- C10: for format JSONP (any casing), the callback is checked only for
non-emptiness: every non-empty callback is accepted verbatim and wrapped
around the body, and the empty string is the only rejected value. -/
theorem C10_callback_nonempty_only (req : Request) (code : Nat) (res : Res)
    (hfmt : strings.ToUpper req.format = FormatJSONP) :
    (req.callback ≠ "" →
      respond req code res = .ok (.jsonp code req.callback res)) ∧
    (respond req code res = .httpError ErrInvalidCallback ↔
      req.callback = "") := by
  have h1 : ¬ strings.ToUpper req.format = FormatJSON := by rw [hfmt]; decide
  constructor
  · intro hcb
    unfold respond
    rw [if_neg h1, if_pos hfmt, if_neg hcb]
  · constructor
    · intro hresp
      by_contra hcb
      unfold respond at hresp
      rw [if_neg h1, if_pos hfmt, if_neg hcb] at hresp
      cases hresp
    · intro hcb
      unfold respond
      rw [if_neg h1, if_pos hfmt, if_pos hcb]

/-- Witness for C10 at `format = "JsonP"` with the weird-but-non-empty
callback accepted verbatim. -/
theorem C10_callback_nonempty_only_witness :
    (reqJsonpCb.callback ≠ "" →
      respond reqJsonpCb 200 (.lookup lW) =
        .ok (.jsonp 200 reqJsonpCb.callback (.lookup lW))) ∧
    (respond reqJsonpCb 200 (.lookup lW) = .httpError ErrInvalidCallback ↔
      reqJsonpCb.callback = "") :=
  C10_callback_nonempty_only reqJsonpCb 200 (.lookup lW) (by decide)

/-- C5: when `ParseAddress` fails, the pipeline terminates with HTTP 400
before any cache access (the cache is unchanged and the outcome is
independent of the cache contents) and before any verification-engine
invocation (the invocation count is unchanged). -/
theorem C5_parse_error_short_circuit (env : Env) (req : Request)
    (s : ServiceState) (e : String)
    (hp : env.parseAddress req.email = .error e) :
    (Service.Lookup env req s).2.status = 400 ∧
    (Service.Lookup env req s).1.verifyCount = s.verifyCount ∧
    (Service.Lookup env req s).1.lookupCache = s.lookupCache ∧
    (∀ cache2 : Cache,
      (Service.Lookup env req { s with lookupCache := cache2 }).2 =
        (Service.Lookup env req s).2) := by
  have h1 := Lookup_parse_error env req s e hp
  refine ⟨?_, ?_, ?_, ?_⟩
  · rw [h1]; exact respond_status_400 req _
  · rw [h1]
  · rw [h1]
  · intro cache2
    rw [h1, Lookup_parse_error env req { s with lookupCache := cache2 } e hp]

/-- Witness for C5 at the unparsable address `"not-an-email"`. -/
theorem C5_parse_error_short_circuit_witness :
    (Service.Lookup envW reqBad s0W).2.status = 400 ∧
    (Service.Lookup envW reqBad s0W).1.verifyCount = s0W.verifyCount ∧
    (Service.Lookup envW reqBad s0W).1.lookupCache = s0W.lookupCache ∧
    (∀ cache2 : Cache,
      (Service.Lookup envW reqBad { s0W with lookupCache := cache2 }).2 =
        (Service.Lookup envW reqBad s0W).2) :=
  C5_parse_error_short_circuit envW reqBad s0W "invalid email" rfl

/-- C6: telemetry classification — a deliverable verdict increments the
"deliverable" counter, an undeliverable one the "undeliverable"
counter, and any error value is captured by the error sink and
increments the "error" counter; on every request the handler performs
exactly one such classification (the total counter value grows by
exactly one). -/
theorem C6_telemetry_classification :
    (∀ (t : Telemetry) (l : verifier.Lookup), l.deliverable = true →
      count t (.lookup l) = { t with deliverable := t.deliverable + 1 }) ∧
    (∀ (t : Telemetry) (l : verifier.Lookup), l.deliverable = false →
      count t (.lookup l) = { t with undeliverable := t.undeliverable + 1 }) ∧
    (∀ (t : Telemetry) (e : Err), count t (.err e) =
      { t with error := t.error + 1, sentry := t.sentry ++ [e] }) ∧
    (∀ (env : Env) (req : Request) (s : ServiceState),
      (Service.Lookup env req s).1.telem.total = s.telem.total + 1) := by
  refine ⟨?_, ?_, ?_, ?_⟩
  · intro t l h; simp [count, h]
  · intro t l h; simp [count, h]
  · intro t e; simp [count]
  · intro env req s
    cases hp : env.parseAddress req.email with
    | error e => simp [Lookup_parse_error env req s e hp, count_total]
    | ok a =>
      cases hc : s.lookupCache.get a.md5Hash with
      | some l => simp [Lookup_cache_hit env req s a l hp hc, count_total]
      | none =>
        cases hv : env.verifyAddressTimeout a with
        | error e =>
          simp [Lookup_verify_error env req s a e hp hc hv, count_total]
        | ok l => simp [Lookup_verify_ok env req s a l hp hc hv, count_total]

/-- Witness for C6: classification of a deliverable verdict and of an
error at a fresh telemetry state. -/
theorem C6_telemetry_classification_witness :
    count telW (.lookup lW) = { telW with deliverable := telW.deliverable + 1 } ∧
    count telW (.lookup { deliverable := false, payload := "p" }) =
      { telW with undeliverable := telW.undeliverable + 1 } ∧
    count telW (.err (.verification "deadline exceeded")) =
      { telW with
          error := telW.error + 1
          sentry := telW.sentry ++ [.verification "deadline exceeded"] } ∧
    (Service.Lookup envW reqJson s0W).1.telem.total = s0W.telem.total + 1 :=
  ⟨C6_telemetry_classification.1 telW lW rfl,
    C6_telemetry_classification.2.1 telW { deliverable := false, payload := "p" } rfl,
    C6_telemetry_classification.2.2.1 telW (.verification "deadline exceeded"),
    C6_telemetry_classification.2.2.2 envW reqJson s0W⟩

/-- C8: encoding-stage errors are invisible to telemetry — when the
upstream pipeline produced a verdict (from the cache or from a
successful verification) but the encoding fails, the response is a 400
error with no body, while the error counter and the error sink are
untouched and the verdict's deliverable/undeliverable counter is still
incremented. -/
theorem C8_encoding_errors_invisible (env : Env) (req : Request)
    (s : ServiceState) (a : verifier.Address) (l : verifier.Lookup)
    (hp : env.parseAddress req.email = .ok a)
    (hres : s.lookupCache.get a.md5Hash = some l ∨
      (s.lookupCache.get a.md5Hash = none ∧
        env.verifyAddressTimeout a = .ok l))
    (hbad : ¬ encodingOk req) :
    (Service.Lookup env req s).2.status = 400 ∧
    (Service.Lookup env req s).2.body = none ∧
    (Service.Lookup env req s).1.telem.error = s.telem.error ∧
    (Service.Lookup env req s).1.telem.sentry = s.telem.sentry ∧
    (l.deliverable = true →
      (Service.Lookup env req s).1.telem.deliverable =
        s.telem.deliverable + 1) ∧
    (l.deliverable = false →
      (Service.Lookup env req s).1.telem.undeliverable =
        s.telem.undeliverable + 1) := by
  have key : ∃ s1 : ServiceState,
      Service.Lookup env req s = (s1, respond req 200 (.lookup l)) ∧
      s1.telem = count s.telem (.lookup l) := by
    rcases hres with hc | ⟨hc, hv⟩
    · exact ⟨_, Lookup_cache_hit env req s a l hp hc, rfl⟩
    · exact ⟨_, Lookup_verify_ok env req s a l hp hc hv, rfl⟩
  obtain ⟨s1, heq, htel⟩ := key
  have hresp := respond_encodingBad req 200 (.lookup l) hbad
  rw [heq]
  refine ⟨hresp.1, hresp.2, ?_, ?_, ?_, ?_⟩
  · show s1.telem.error = s.telem.error
    rw [htel]
    by_cases hd : l.deliverable <;> simp [count, hd]
  · show s1.telem.sentry = s.telem.sentry
    rw [htel]
    by_cases hd : l.deliverable <;> simp [count, hd]
  · intro hd
    show s1.telem.deliverable = s.telem.deliverable + 1
    rw [htel]; simp [count, hd]
  · intro hd
    show s1.telem.undeliverable = s.telem.undeliverable + 1
    rw [htel]; simp [count, hd]

/-- Witness for C8: a fresh verifiable address requested with
`format = "BOGUS"`: the response is a bodyless 400, yet the deliverable
counter is incremented and the error telemetry is untouched. -/
theorem C8_encoding_errors_invisible_witness :
    (Service.Lookup envW reqBogus s0W).2.status = 400 ∧
    (Service.Lookup envW reqBogus s0W).2.body = none ∧
    (Service.Lookup envW reqBogus s0W).1.telem.error = s0W.telem.error ∧
    (Service.Lookup envW reqBogus s0W).1.telem.sentry = s0W.telem.sentry ∧
    (lW.deliverable = true →
      (Service.Lookup envW reqBogus s0W).1.telem.deliverable =
        s0W.telem.deliverable + 1) ∧
    (lW.deliverable = false →
      (Service.Lookup envW reqBogus s0W).1.telem.undeliverable =
        s0W.telem.undeliverable + 1) :=
  C8_encoding_errors_invisible envW reqBogus s0W { md5Hash := "h:a@b.c" } lW
    rfl (Or.inr ⟨rfl, rfl⟩) (by decide)

/-- C9: the cache is populated before encoding — after a successful
verification the verdict sits in the cache under the address hash even
when the request's encoding subsequently fails, and a later request for
the same address is answered from the cache (status-200 respond of the
same verdict) without invoking the verification engine again. -/
theorem C9_cache_populated_before_encoding (env : Env) (req req2 : Request)
    (s : ServiceState) (a : verifier.Address) (l : verifier.Lookup)
    (hp : env.parseAddress req.email = .ok a)
    (hc : s.lookupCache.get a.md5Hash = none)
    (hv : env.verifyAddressTimeout a = .ok l)
    (hp2 : env.parseAddress req2.email = .ok a) :
    (Service.Lookup env req s).1.lookupCache.get a.md5Hash = some l ∧
    (Service.Lookup env req2 (Service.Lookup env req s).1).1.verifyCount =
      (Service.Lookup env req s).1.verifyCount ∧
    (Service.Lookup env req2 (Service.Lookup env req s).1).2 =
      respond req2 200 (.lookup l) := by
  have h1 := Lookup_verify_ok env req s a l hp hc hv
  have hc2 : (Service.Lookup env req s).1.lookupCache.get a.md5Hash =
      some l := by
    rw [h1]
    exact Cache.get_setDefault_self s.lookupCache a.md5Hash l
  have h2 := Lookup_cache_hit env req2 (Service.Lookup env req s).1 a l hp2 hc2
  exact ⟨hc2, by rw [h2], by rw [h2]⟩

/-- Witness for C9: first request with `format = "BOGUS"` (encoding
fails), second request for the same address as JSON is served from the
cache. -/
theorem C9_cache_populated_before_encoding_witness :
    (Service.Lookup envW reqBogus s0W).1.lookupCache.get "h:a@b.c" = some lW ∧
    (Service.Lookup envW reqJson
        (Service.Lookup envW reqBogus s0W).1).1.verifyCount =
      (Service.Lookup envW reqBogus s0W).1.verifyCount ∧
    (Service.Lookup envW reqJson (Service.Lookup envW reqBogus s0W).1).2 =
      respond reqJson 200 (.lookup lW) :=
  C9_cache_populated_before_encoding envW reqBogus reqJson s0W
    { md5Hash := "h:a@b.c" } lW rfl rfl rfl rfl

/-- C1 counterexample: with `format = "BOGUS"` the first request for a
valid address does trigger a successful verification (one engine
invocation, verdict cached), yet the repeated identical request is
answered with status 400 and no verdict body — not with the verdict and
status 200. -/
theorem C1_counterexample :
    (Service.Lookup envW reqBogus s0W).1.verifyCount = 1 ∧
    (Service.Lookup envW reqBogus s0W).1.lookupCache.get "h:a@b.c" =
      some lW ∧
    (Service.Lookup envW reqBogus
      (Service.Lookup envW reqBogus s0W).1).2.status = 400 ∧
    (Service.Lookup envW reqBogus
      (Service.Lookup envW reqBogus s0W).1).2.body = none := by decide

/-- C1 (amended): for every valid address whose first request triggers a
successful verification and whose encoding succeeds (accepted format,
non-empty callback when JSONP), every repeated identical request within
the TTL is answered with the identical respond outcome — status 200 and
the identical verdict body — and the engine is not invoked a second
time. -/
theorem C1_memoized_repeat (env : Env) (req : Request) (s : ServiceState)
    (a : verifier.Address) (l : verifier.Lookup)
    (hp : env.parseAddress req.email = .ok a)
    (hc : s.lookupCache.get a.md5Hash = none)
    (hv : env.verifyAddressTimeout a = .ok l)
    (henc : encodingOk req) :
    (Service.Lookup env req s).1.verifyCount = s.verifyCount + 1 ∧
    (Service.Lookup env req (Service.Lookup env req s).1).2 =
      (Service.Lookup env req s).2 ∧
    (Service.Lookup env req (Service.Lookup env req s).1).2.status = 200 ∧
    (Service.Lookup env req (Service.Lookup env req s).1).2.body =
      some (.lookup l) ∧
    (Service.Lookup env req (Service.Lookup env req s).1).1.verifyCount =
      (Service.Lookup env req s).1.verifyCount := by
  have h1 := Lookup_verify_ok env req s a l hp hc hv
  have hc2 : (Service.Lookup env req s).1.lookupCache.get a.md5Hash =
      some l := by
    rw [h1]
    exact Cache.get_setDefault_self s.lookupCache a.md5Hash l
  have h2 := Lookup_cache_hit env req (Service.Lookup env req s).1 a l hp hc2
  have hre := respond_encodingOk req 200 (.lookup l) henc
  refine ⟨by rw [h1], ?_, ?_, ?_, by rw [h2]⟩
  · rw [h2, h1]
  · rw [h2]; exact hre.1
  · rw [h2]; exact hre.2

/-- Witness for the amended C1 at `format = "Json"` on a fresh valid
address. -/
theorem C1_memoized_repeat_witness :
    (Service.Lookup envW reqJson s0W).1.verifyCount = s0W.verifyCount + 1 ∧
    (Service.Lookup envW reqJson (Service.Lookup envW reqJson s0W).1).2 =
      (Service.Lookup envW reqJson s0W).2 ∧
    (Service.Lookup envW reqJson
      (Service.Lookup envW reqJson s0W).1).2.status = 200 ∧
    (Service.Lookup envW reqJson (Service.Lookup envW reqJson s0W).1).2.body =
      some (.lookup lW) ∧
    (Service.Lookup envW reqJson
        (Service.Lookup envW reqJson s0W).1).1.verifyCount =
      (Service.Lookup envW reqJson s0W).1.verifyCount :=
  C1_memoized_repeat envW reqJson s0W { md5Hash := "h:a@b.c" } lW rfl rfl rfl
    (by decide)

/-- An address on which `envW`'s verification engine fails, requested
with an unsupported format. -/
def reqSlowBogus : Request where
  email := "slow@example.com"
  format := "BOGUS"
  callback := ""

/-- An address on which `envW`'s verification engine fails, requested as
XML (mixed case). -/
def reqSlowXml : Request where
  email := "slow@example.com"
  format := "xMl"
  callback := ""

/-- C4 counterexample: a failing verification requested with
`format = "BOGUS"`: the engine was invoked and failed (error counter
incremented), yet the response status is 400 — `ErrUnsupportedFormat`
from the encoder — not 500. -/
theorem C4_counterexample :
    (Service.Lookup envW reqSlowBogus s0W).1.verifyCount = 1 ∧
    (Service.Lookup envW reqSlowBogus s0W).1.telem.error = 1 ∧
    (Service.Lookup envW reqSlowBogus s0W).2.status = 400 ∧
    ¬ (Service.Lookup envW reqSlowBogus s0W).2.status = 500 := by decide

/-- C4 (amended): when the verification call fails (including timeout),
unconditionally — whatever the requested format — the telemetry error
counter is incremented exactly once, the error is reported to the error
sink, the other counters are untouched and no cache entry is created;
provided the request's encoding succeeds, the response has HTTP status
500. -/
theorem C4_verification_failure (env : Env) (req : Request)
    (s : ServiceState) (a : verifier.Address) (e : String)
    (hp : env.parseAddress req.email = .ok a)
    (hc : s.lookupCache.get a.md5Hash = none)
    (hv : env.verifyAddressTimeout a = .error e) :
    (Service.Lookup env req s).1.telem.error = s.telem.error + 1 ∧
    (Service.Lookup env req s).1.telem.sentry =
      s.telem.sentry ++ [.verification e] ∧
    (Service.Lookup env req s).1.telem.deliverable = s.telem.deliverable ∧
    (Service.Lookup env req s).1.telem.undeliverable =
      s.telem.undeliverable ∧
    (Service.Lookup env req s).1.lookupCache = s.lookupCache ∧
    (encodingOk req → (Service.Lookup env req s).2.status = 500) := by
  have h1 := Lookup_verify_error env req s a e hp hc hv
  refine ⟨?_, ?_, ?_, ?_, ?_, ?_⟩
  · simp [h1, count]
  · simp [h1, count]
  · simp [h1, count]
  · simp [h1, count]
  · simp [h1]
  · intro henc
    rw [h1]
    exact (respond_encodingOk req 500 (.err (.verification e)) henc).1

/-- Witness for the amended C4 at `format = "xMl"` on the address whose
verification fails. -/
theorem C4_verification_failure_witness :
    (Service.Lookup envW reqSlowXml s0W).1.telem.error =
      s0W.telem.error + 1 ∧
    (Service.Lookup envW reqSlowXml s0W).1.telem.sentry =
      s0W.telem.sentry ++ [.verification "deadline exceeded"] ∧
    (Service.Lookup envW reqSlowXml s0W).1.telem.deliverable =
      s0W.telem.deliverable ∧
    (Service.Lookup envW reqSlowXml s0W).1.telem.undeliverable =
      s0W.telem.undeliverable ∧
    (Service.Lookup envW reqSlowXml s0W).1.lookupCache = s0W.lookupCache ∧
    (encodingOk reqSlowXml →
      (Service.Lookup envW reqSlowXml s0W).2.status = 500) :=
  C4_verification_failure envW reqSlowXml s0W
    { md5Hash := "h:slow@example.com" } "deadline exceeded" rfl rfl rfl

end Trumail
